import Mathlib

/-!
# Verification of the schedule_assistant booking core

Shallow embedding of the booking conflict-detection and status-lifecycle
engine of the `schedule_assistant` repository
(`backend/app/routes/equipment.py`, `backend/app/routes/booking_auth.py`,
`backend/app/routes/booking.py`, `backend/app/routes/admin.py`,
`backend/app/core/scheduler.py`, `backend/app/models/booking.py`,
`backend/app/models/equipment.py`).

Timestamps (`datetime` values) are embedded as integers (seconds); a
`timedelta(hours=h)` is `3600 * h`.  Python database rows become Lean
structures; `db.query(...).filter(...).all()` becomes `List.filter`.

The SQLAlchemy session used by the code (`app/core/database.py`, whose
source is not in the snapshot) is modelled as a non-autoflushing session
(`sessionmaker(autocommit=False, autoflush=False, ...)`), matching the
session factory the repository's own integration tests construct
(`backend/test_integration.py`).  Concretely: a query inside a function
reads the committed database snapshot, not the in-session pending
attribute writes; all pending writes are applied atomically by the final
`db.commit()`, and `db.rollback()` discards them all.
-/

namespace ScheduleAssistant

/-- `BookingStatus` enum from `app/models/booking.py`. -/
inductive BookingStatus where
  | active
  | ongoing
  | completed
  | cancelled
deriving DecidableEq, Repr

/-- `EquipmentStatus` enum from `app/models/equipment.py`. -/
inductive EquipmentStatus where
  | available
  | borrowed
deriving DecidableEq, Repr

/-- A row of the `bookings` table (`app/models/booking.py`, class `Booking`).
`booking_start_datetime` is an absolute timestamp in seconds;
`booking_duration_hours` an integer hour count. -/
structure Booking where
  id : Nat
  equipment_id : Nat
  user_id : Nat
  borrower_name : String
  borrower_email : String
  booking_start_datetime : Int
  booking_duration_hours : Int
  status : BookingStatus
deriving DecidableEq, Repr

/-- A row of the `equipment` table (`app/models/equipment.py`, class
`Equipment`); only the fields the booking core reads are kept. -/
structure Equipment where
  id : Nat
  name : String
  status : EquipmentStatus
deriving DecidableEq, Repr

/-- `timedelta(hours=h)` as a number of seconds. -/
def timedeltaHours (h : Int) : Int := 3600 * h

/-- The `booking_end_datetime` property of `Booking`
(`app/models/booking.py` lines 30-34): returns
`booking_start_datetime + timedelta(hours=booking_duration_hours)` when
both fields are truthy, `None` otherwise.  A `datetime` object is always
truthy in Python, so only a zero `booking_duration_hours` yields `None`. -/
def Booking.booking_end_datetime (b : Booking) : Option Int :=
  if b.booking_duration_hours ≠ 0 then
    some (b.booking_start_datetime + timedeltaHours b.booking_duration_hours)
  else
    none

/-- The data-model invariant on a stored reservation
(spec section 3: duration ∈ [1, 8]). -/
def Booking.WF (b : Booking) : Prop :=
  1 ≤ b.booking_duration_hours ∧ b.booking_duration_hours ≤ 8

instance (b : Booking) : Decidable b.WF := by
  unfold Booking.WF; infer_instance

/-! ## Availability Checker

`check_equipment_availability` in `app/routes/equipment.py` (lines
83-121) and the conflict scan inside `create_booking` in
`app/routes/booking_auth.py` (lines 145-163) both run the same
two-stage filter over the bookings table:

* SQL stage: `equipment_id == eid AND status == ACTIVE AND
  booking_start_datetime < end_datetime`;
* Python stage: keep those whose
  `booking_start + timedelta(hours=duration) > start_datetime`.
-/

/-- The SQL stage of the conflict scan: `db.query(Booking).filter(
Booking.equipment_id == equipment_id, Booking.status == BookingStatus.ACTIVE,
Booking.booking_start_datetime < end_datetime).all()`. -/
def conflicting_bookings_query (db : List Booking) (equipment_id : Nat)
    (end_datetime : Int) : List Booking :=
  db.filter (fun b =>
    b.equipment_id = equipment_id ∧ b.status = BookingStatus.active ∧
      b.booking_start_datetime < end_datetime)

/-- The Python stage of the conflict scan: starting from the SQL-stage
result, append to `actual_conflicts` every booking whose
`booking_end = booking_start_datetime + timedelta(hours=booking_duration_hours)`
satisfies `booking_end > start_datetime`. -/
def actual_conflicts (db : List Booking) (equipment_id : Nat)
    (start_datetime end_datetime : Int) : List Booking :=
  (conflicting_bookings_query db equipment_id end_datetime).filter (fun b =>
    b.booking_start_datetime + timedeltaHours b.booking_duration_hours
      > start_datetime)

/-- Result record of `check_equipment_availability`
(`app/routes/equipment.py`): the JSON body it returns, restricted to the
decision fields. -/
structure AvailabilityResult where
  equipment_id : Nat
  start_datetime : Int
  end_datetime : Int
  is_available : Bool
  conflicting_bookings : Nat
deriving DecidableEq, Repr

/-- `check_equipment_availability` (`app/routes/equipment.py` lines
83-121), after the equipment row has been found: computes
`end_datetime = start_datetime + timedelta(hours=duration_hours)`, runs
the two-stage conflict scan, and returns
`is_available = (len(actual_conflicts) == 0) and
(equipment.status == EquipmentStatus.AVAILABLE)` together with the count
of conflicting bookings. -/
def check_equipment_availability (db : List Booking) (equipment : Equipment)
    (start_datetime : Int) (duration_hours : Int) : AvailabilityResult :=
  let end_datetime := start_datetime + timedeltaHours duration_hours
  let conflicts := actual_conflicts db equipment.id start_datetime end_datetime
  { equipment_id := equipment.id
    start_datetime := start_datetime
    end_datetime := end_datetime
    is_available :=
      conflicts.length = 0 ∧ equipment.status = EquipmentStatus.available
    conflicting_bookings := conflicts.length }

/-! ## Lifecycle Advancer

`update_booking_statuses` and `update_equipment_availability` in
`app/core/scheduler.py`.  Each function opens a session, queries, mutates
the status attribute of the returned ORM objects, and commits once.
Because the session does not autoflush, the query for `ONGOING` bookings
in `update_booking_statuses` reads the committed snapshot and therefore
does not see the bookings the first loop just switched to `ONGOING`;
both loops' writes land together at `db.commit()`.  The objects the
second query returns are nevertheless the session's identity-mapped
instances, so its Python-side condition reads the current attribute
values.  Each loop is therefore modelled per booking as a function of the
snapshot row (what the SQL filter saw) and the current row (what the loop
body mutates). -/

/-- First loop of `update_booking_statuses` (`app/core/scheduler.py`
lines 24-31), acting on one booking: if the snapshot row has
`status == ACTIVE` and `booking_start_datetime <= now`, the loop body
sets `booking.status = ONGOING` on the session object `cur`. -/
def activateLoop (now : Int) (snap cur : Booking) : Booking :=
  if snap.status = BookingStatus.active ∧ snap.booking_start_datetime ≤ now then
    { cur with status := BookingStatus.ongoing }
  else
    cur

/-- Second loop of `update_booking_statuses` (`app/core/scheduler.py`
lines 33-41), acting on one booking: the SQL filter selects snapshot rows
with `status == ONGOING`; the loop body checks
`booking.booking_end_datetime and booking.booking_end_datetime <= now`
on the session object and sets `booking.status = COMPLETED`.
The start/duration fields are never written, so the end time read from
`cur` equals the snapshot's. -/
def completeLoop (now : Int) (snap cur : Booking) : Booking :=
  if snap.status = BookingStatus.ongoing ∧
      cur.booking_end_datetime.any (fun e => e ≤ now) = true then
    { cur with status := BookingStatus.completed }
  else
    cur

/-- The combined effect of one sweep on one row: the activate loop, then
the complete loop, both filtering on the snapshot row `b`. -/
def sweepOne (now : Int) (b : Booking) : Booking :=
  completeLoop now b (activateLoop now b b)

/-- `update_booking_statuses` (`app/core/scheduler.py` lines 17-52): run
the activate loop, then the complete loop, each filtering on the
committed snapshot `db`, and commit the combined attribute writes. -/
def update_booking_statuses (now : Int) (db : List Booking) : List Booking :=
  db.map (sweepOne now)

/-- The existence check inside `update_equipment_availability`
(`app/core/scheduler.py` lines 63-67): `db.query(Booking).filter(
Booking.equipment_id == equipment.id,
Booking.status == BookingStatus.ONGOING).first()` is non-`None`. -/
def hasOngoingBooking (db : List Booking) (equipment_id : Nat) : Bool :=
  db.any (fun b =>
    b.equipment_id = equipment_id ∧ b.status = BookingStatus.ongoing)

/-- `update_equipment_availability` (`app/core/scheduler.py` lines
55-89): for every equipment row, set status `BORROWED` when an `ONGOING`
booking references it (unless already `BORROWED`), else set `AVAILABLE`
(unless already `AVAILABLE`); commit all writes together. -/
def update_equipment_availability (db : List Booking)
    (allEquipment : List Equipment) : List Equipment :=
  allEquipment.map (fun e =>
    if hasOngoingBooking db e.id then
      if e.status ≠ EquipmentStatus.borrowed then
        { e with status := EquipmentStatus.borrowed }
      else e
    else
      if e.status ≠ EquipmentStatus.available then
        { e with status := EquipmentStatus.available }
      else e)

/-- The persisted state the Lifecycle Advancer touches: the bookings
table and the equipment table. -/
structure StoreState where
  bookings : List Booking
  equipment : List Equipment
deriving DecidableEq, Repr

/-- One full Advancer invocation at time `now`: the reservation status
sweep (`update_booking_statuses`) followed by the equipment sync
(`update_equipment_availability`), as scheduled in
`app/core/scheduler.py` `start_scheduler` (lines 92-114). -/
def advance (now : Int) (s : StoreState) : StoreState :=
  { bookings := update_booking_statuses now s.bookings
    equipment := update_equipment_availability
      (update_booking_statuses now s.bookings) s.equipment }

/-! ## Booking mutation endpoints

`cancel_booking` (`app/routes/booking_auth.py` lines 183-211 for the
user-facing variant, `app/routes/booking.py` lines 129-153 for the admin
variant), `update_booking` (`app/routes/booking.py` lines 104-126) and
`clean_completed_cancelled_bookings` (`app/routes/admin.py` lines
192-227).  A raised `HTTPException` is modelled as an `Except.error`;
the session commits only on the success path, so an error leaves the
stored table unchanged.  `Booking.id` is the table's primary key and is
unique across rows. -/

/-- The `HTTPException` outcomes these handlers raise. -/
inductive ApiError where
  | notFound
  | badRequest
deriving DecidableEq, Repr

/-- User-facing `cancel_booking` (`app/routes/booking_auth.py`): look up
the booking by id restricted to the current user; 404 when absent; 400
`"Only active bookings can be cancelled"` when its status is not
`ACTIVE`; otherwise delete the row and commit. -/
def cancel_booking_user (db : List Booking) (current_user_id booking_id : Nat) :
    Except ApiError (List Booking) :=
  match db.find? (fun b => b.id = booking_id ∧ b.user_id = current_user_id) with
  | none => Except.error ApiError.notFound
  | some booking =>
    if booking.status ≠ BookingStatus.active then
      Except.error ApiError.badRequest
    else
      Except.ok (db.eraseP (fun b =>
        b.id = booking_id ∧ b.user_id = current_user_id))

/-- Admin `cancel_booking` (`app/routes/booking.py`): identical, except
the lookup is by id alone. -/
def cancel_booking_admin (db : List Booking) (booking_id : Nat) :
    Except ApiError (List Booking) :=
  match db.find? (fun b => b.id = booking_id) with
  | none => Except.error ApiError.notFound
  | some booking =>
    if booking.status ≠ BookingStatus.active then
      Except.error ApiError.badRequest
    else
      Except.ok (db.eraseP (fun b => b.id = booking_id))

/-- The `BookingUpdate` request schema (`app/schemas/booking.py`):
every field optional; `none` models an unset field, which
`dict(exclude_unset=True)` omits. -/
structure BookingUpdate where
  booking_start_datetime : Option Int
  booking_duration_hours : Option Int
  status : Option BookingStatus
deriving DecidableEq, Repr

/-- The `setattr` loop of `update_booking`: overwrite each field the
update carries. -/
def applyBookingUpdate (u : BookingUpdate) (b : Booking) : Booking :=
  let b := match u.booking_start_datetime with
    | some v => { b with booking_start_datetime := v }
    | none => b
  let b := match u.booking_duration_hours with
    | some v => { b with booking_duration_hours := v }
    | none => b
  match u.status with
  | some v => { b with status := v }
  | none => b

/-- Admin `update_booking` (`app/routes/booking.py` lines 104-126): look
the booking up by id (404 when absent), then `setattr` every provided
field and commit — there is no check on the booking's current status. -/
def update_booking (db : List Booking) (booking_id : Nat) (u : BookingUpdate) :
    Except ApiError (List Booking) :=
  match db.find? (fun b => b.id = booking_id) with
  | none => Except.error ApiError.notFound
  | some _ =>
    Except.ok (db.map (fun b =>
      if b.id = booking_id then applyBookingUpdate u b else b))

/-- `clean_completed_cancelled_bookings` (`app/routes/admin.py` lines
192-227): delete every booking whose status is in
`[COMPLETED, CANCELLED]`, returning the deleted count and the remaining
table. -/
def clean_completed_cancelled_bookings (db : List Booking) :
    Nat × List Booking :=
  ((db.filter (fun b =>
      b.status = BookingStatus.completed ∨
        b.status = BookingStatus.cancelled)).length,
   db.filter (fun b =>
     ¬(b.status = BookingStatus.completed ∨
        b.status = BookingStatus.cancelled)))

/-! ## Failure model for one scheduler tick

`start_scheduler` (`app/core/scheduler.py` lines 92-114) registers
`update_booking_statuses` and `update_equipment_availability` as two
separately scheduled jobs.  Each job opens its own session, wraps its
whole body in `try/except`, commits on success, and on any exception
calls `db.rollback()`, logs, and returns normally (no exception escapes
— modelled by these being total functions).  A job failing is modelled
by a Boolean flag; a failed job's transaction rolls back, leaving its
table exactly as it was, while the other job's commit stands. -/

/-- One scheduler tick with injected failures: `sweepFails` aborts the
`update_booking_statuses` job (its transaction rolls back), `syncFails`
aborts the `update_equipment_availability` job.  The sync job reads the
bookings table as left by the sweep job (committed or rolled back). -/
def run_scheduler_tick (sweepFails syncFails : Bool) (now : Int)
    (s : StoreState) : StoreState :=
  let s1 :=
    if sweepFails then s
    else { s with bookings := update_booking_statuses now s.bookings }
  if syncFails then s1
  else { s1 with
          equipment := update_equipment_availability s1.bookings s1.equipment }

/-- `check_equipment_availability` in `app/routes/equipment_simple.py`
(lines 48-90): takes `end_datetime` directly, queries all `ACTIVE`
bookings of the equipment, and keeps those with
`booking_start < end_datetime and booking_end > start_datetime`;
`is_available = (len(conflicting_bookings) == 0) and
(equipment.status == EquipmentStatus.AVAILABLE)`. -/
def check_equipment_availability_simple (db : List Booking)
    (equipment : Equipment) (start_datetime end_datetime : Int) :
    AvailabilityResult :=
  let active_bookings := db.filter (fun b =>
    b.equipment_id = equipment.id ∧ b.status = BookingStatus.active)
  let conflicts := active_bookings.filter (fun b =>
    b.booking_start_datetime < end_datetime ∧
      b.booking_start_datetime + timedeltaHours b.booking_duration_hours
        > start_datetime)
  { equipment_id := equipment.id
    start_datetime := start_datetime
    end_datetime := end_datetime
    is_available :=
      conflicts.length = 0 ∧ equipment.status = EquipmentStatus.available
    conflicting_bookings := conflicts.length }

/-- The non-status fields of a booking row, used to state frame
properties of the sweep. -/
def Booking.dataFields (b : Booking) :
    Nat × Nat × Nat × String × String × Int × Int :=
  (b.id, b.equipment_id, b.user_id, b.borrower_name, b.borrower_email,
   b.booking_start_datetime, b.booking_duration_hours)

/-- The non-status fields of an equipment row. -/
def Equipment.dataFields (e : Equipment) : Nat × String :=
  (e.id, e.name)

/-! ## Theorems -/

/-- The full conflict predicate: what membership in the two-stage scan
amounts to, stated directly over a table row. -/
def isConflict (equipment_id : Nat) (start_datetime end_datetime : Int)
    (b : Booking) : Prop :=
  b.equipment_id = equipment_id ∧ b.status = BookingStatus.active ∧
    b.booking_start_datetime < end_datetime ∧
    b.booking_start_datetime + timedeltaHours b.booking_duration_hours
      > start_datetime

instance (eid : Nat) (s e : Int) (b : Booking) :
    Decidable (isConflict eid s e b) := by
  unfold isConflict; infer_instance

/-- **C1.** A booking is collected by the conflict scan of
`create_booking` / `check_equipment_availability` iff it is a row of the
table for the same equipment whose status is `ACTIVE` (Ongoing,
Completed and Cancelled rows are never candidates) and whose interval
satisfies `candidateStart < proposedEnd AND candidateEnd >
proposedStart`, both ends being start + duration.  The strict
inequalities give the half-open-interval rule: back-to-back bookings,
where `candidateEnd = proposedStart` or `proposedEnd = candidateStart`,
are not conflicts. -/
theorem mem_actual_conflicts_iff (db : List Booking) (equipment_id : Nat)
    (start_datetime duration_hours : Int) (b : Booking) :
    b ∈ actual_conflicts db equipment_id start_datetime
        (start_datetime + timedeltaHours duration_hours) ↔
      b ∈ db ∧ b.status = BookingStatus.active ∧
        b.equipment_id = equipment_id ∧
        b.booking_start_datetime
          < start_datetime + timedeltaHours duration_hours ∧
        b.booking_start_datetime + timedeltaHours b.booking_duration_hours
          > start_datetime := by
  simp only [actual_conflicts, conflicting_bookings_query, List.mem_filter,
    decide_eq_true_eq]
  tauto

/-- **C2.** Both availability endpoints return
`is_available = true` iff the number of conflicting bookings is `0` and
the equipment status is `Available`, and the conflict count they return
is the count of all conflicting rows of the table (the scan filters the
whole table, without short-circuiting at the first conflict). -/
theorem availability_verdict (db : List Booking) (equipment : Equipment)
    (start_datetime duration_hours end_datetime : Int) :
    ((check_equipment_availability db equipment
        start_datetime duration_hours).is_available = true ↔
      (check_equipment_availability db equipment
          start_datetime duration_hours).conflicting_bookings = 0 ∧
        equipment.status = EquipmentStatus.available) ∧
    (check_equipment_availability db equipment
        start_datetime duration_hours).conflicting_bookings =
      (db.filter (fun b => isConflict equipment.id start_datetime
        (start_datetime + timedeltaHours duration_hours) b)).length ∧
    ((check_equipment_availability_simple db equipment
        start_datetime end_datetime).is_available = true ↔
      (check_equipment_availability_simple db equipment
          start_datetime end_datetime).conflicting_bookings = 0 ∧
        equipment.status = EquipmentStatus.available) ∧
    (check_equipment_availability_simple db equipment
        start_datetime end_datetime).conflicting_bookings =
      (db.filter (fun b =>
        isConflict equipment.id start_datetime end_datetime b)).length := by
  refine ⟨by simp [check_equipment_availability], ?_,
    by simp [check_equipment_availability_simple], ?_⟩
  · show (actual_conflicts db equipment.id start_datetime
        (start_datetime + timedeltaHours duration_hours)).length = _
    congr 1
    simp only [actual_conflicts, conflicting_bookings_query,
      List.filter_filter]
    refine List.filter_congr fun b _ => ?_
    rw [Bool.eq_iff_iff]
    simp [isConflict]
    tauto
  · show (List.filter _ (List.filter _ db)).length = _
    congr 1
    simp only [List.filter_filter]
    refine List.filter_congr fun b _ => ?_
    rw [Bool.eq_iff_iff]
    simp [isConflict]
    tauto

/-- Per-booking effect of one sweep on a row that is `ACTIVE` in the
snapshot. -/
theorem sweepOne_active (now : Int) (b : Booking)
    (h : b.status = BookingStatus.active) :
    sweepOne now b =
      if b.booking_start_datetime ≤ now then
        { b with status := BookingStatus.ongoing }
      else b := by
  by_cases hc : b.booking_start_datetime ≤ now <;>
    simp [sweepOne, activateLoop, completeLoop, h, hc]

/-- Per-booking effect of one sweep on a row that is `ONGOING` in the
snapshot, when its duration is nonzero (so the derived end time is not
`None`). -/
theorem sweepOne_ongoing (now : Int) (b : Booking)
    (h : b.status = BookingStatus.ongoing)
    (hd : b.booking_duration_hours ≠ 0) :
    sweepOne now b =
      if b.booking_start_datetime + timedeltaHours b.booking_duration_hours
          ≤ now then
        { b with status := BookingStatus.completed }
      else b := by
  by_cases hc : b.booking_start_datetime +
      timedeltaHours b.booking_duration_hours ≤ now <;>
    simp [sweepOne, activateLoop, completeLoop, Booking.booking_end_datetime,
      h, hd, hc]

/-- Per-booking effect of one sweep on a `COMPLETED` or `CANCELLED`
snapshot row: untouched. -/
theorem sweepOne_terminal (now : Int) (b : Booking)
    (h : b.status = BookingStatus.completed ∨
      b.status = BookingStatus.cancelled) :
    sweepOne now b = b := by
  rcases h with h | h <;> simp [sweepOne, activateLoop, completeLoop, h]

/-- **C3.** One reservation-status sweep at time `now` transitions
exactly the rows that were `ACTIVE` with `start <= now` to `ONGOING`,
and exactly the rows that were `ONGOING` with `start + duration <= now`
to `COMPLETED`; `COMPLETED` and `CANCELLED` rows are returned entirely
unchanged.  The hypothesis is the data-model invariant
`duration ∈ [1, 8]` (only `1 ≤ duration` is needed, so that the derived
`booking_end_datetime` is not `None`). -/
theorem sweep_transitions_exactly (now : Int) (db : List Booking)
    (hwf : ∀ b ∈ db, 1 ≤ b.booking_duration_hours) :
    (update_booking_statuses now db).length = db.length ∧
    ∀ i (h : i < db.length)
      (h2 : i < (update_booking_statuses now db).length),
      (db[i].status = BookingStatus.active →
        (update_booking_statuses now db)[i].status =
          (if db[i].booking_start_datetime ≤ now then
            BookingStatus.ongoing else BookingStatus.active)) ∧
      (db[i].status = BookingStatus.ongoing →
        (update_booking_statuses now db)[i].status =
          (if db[i].booking_start_datetime +
              timedeltaHours db[i].booking_duration_hours ≤ now then
            BookingStatus.completed else BookingStatus.ongoing)) ∧
      (db[i].status = BookingStatus.completed →
        (update_booking_statuses now db)[i] = db[i]) ∧
      (db[i].status = BookingStatus.cancelled →
        (update_booking_statuses now db)[i] = db[i]) := by
  refine ⟨by simp [update_booking_statuses], ?_⟩
  intro i h h2
  have hd : db[i].booking_duration_hours ≠ 0 := by
    have := hwf db[i] (List.getElem_mem h)
    omega
  have hget : (update_booking_statuses now db)[i] =
      sweepOne now db[i] := by
    simp [update_booking_statuses]
  refine ⟨?_, ?_, ?_, ?_⟩ <;> intro hstatus
  · rw [hget, sweepOne_active now db[i] hstatus]
    by_cases hc : db[i].booking_start_datetime ≤ now <;> simp [hc, hstatus]
  · rw [hget, sweepOne_ongoing now db[i] hstatus hd]
    by_cases hc : db[i].booking_start_datetime +
        timedeltaHours db[i].booking_duration_hours ≤ now <;>
      simp [hc, hstatus]
  · rw [hget, sweepOne_terminal now db[i] (Or.inl hstatus)]
  · rw [hget, sweepOne_terminal now db[i] (Or.inr hstatus)]

/-- Normal form of the equipment-sync loop body: whatever the current
status, the row comes out with status `BORROWED` exactly when an
`ONGOING` booking references it (the `status != ...` guards only skip
redundant writes). -/
theorem syncOne_eq (db : List Booking) (e : Equipment) :
    (if hasOngoingBooking db e.id then
      if e.status ≠ EquipmentStatus.borrowed then
        { e with status := EquipmentStatus.borrowed }
      else e
    else
      if e.status ≠ EquipmentStatus.available then
        { e with status := EquipmentStatus.available }
      else e) =
    { e with status :=
        if hasOngoingBooking db e.id then EquipmentStatus.borrowed
        else EquipmentStatus.available } := by
  by_cases hb : hasOngoingBooking db e.id <;>
    rcases e with ⟨i, n, _ | _⟩ <;> simp [hb]

/-- `update_equipment_availability` in normal form: every row keeps its
identity and gets the derived status. -/
theorem update_equipment_availability_eq (db : List Booking)
    (es : List Equipment) :
    update_equipment_availability db es =
      es.map (fun e =>
        { e with status :=
            if hasOngoingBooking db e.id then EquipmentStatus.borrowed
            else EquipmentStatus.available }) := by
  unfold update_equipment_availability
  exact List.map_congr_left fun e _ => syncOne_eq db e

/-- **C4.** After an `advance` invocation (sweep then sync) completes,
a piece of equipment has status `BORROWED` iff some reservation in the
post-sweep bookings table references it with status `ONGOING`, and
`AVAILABLE` otherwise (the two statuses being the only ones). -/
theorem advance_equipment_iff_ongoing (now : Int) (s : StoreState) :
    (advance now s).equipment.length = s.equipment.length ∧
    ∀ e ∈ (advance now s).equipment,
      (e.status = EquipmentStatus.borrowed ↔
        ∃ b ∈ (advance now s).bookings,
          b.equipment_id = e.id ∧ b.status = BookingStatus.ongoing) := by
  constructor
  · simp [advance, update_equipment_availability_eq]
  · intro e he
    simp only [advance, update_equipment_availability_eq,
      List.mem_map] at he
    obtain ⟨e0, _, rfl⟩ := he
    by_cases hb :
        hasOngoingBooking (update_booking_statuses now s.bookings) e0.id
        = true <;>
      simp only [hasOngoingBooking, List.any_eq_true, decide_eq_true_eq]
        at hb <;>
      simp [advance, hasOngoingBooking, List.any_eq_true, hb]

/-- Per-booking effect of one sweep on an `ONGOING` row whose duration
is zero: its derived end time is `None`, so the complete loop's truthiness
check skips it. -/
theorem sweepOne_ongoing_none (now : Int) (b : Booking)
    (h : b.status = BookingStatus.ongoing)
    (hd : b.booking_duration_hours = 0) :
    sweepOne now b = b := by
  simp [sweepOne, activateLoop, completeLoop, Booking.booking_end_datetime,
    h, hd]

/-- A second sweep at the same `now` does nothing further to a row that
was `ONGOING` before the first one. -/
theorem sweepOne_ongoing_fix (now : Int) (b : Booking)
    (h : b.status = BookingStatus.ongoing) :
    sweepOne now (sweepOne now b) = sweepOne now b := by
  by_cases hd : b.booking_duration_hours = 0
  · simp only [sweepOne_ongoing_none now b h hd]
  · rw [sweepOne_ongoing now b h hd]
    by_cases he : b.booking_start_datetime +
        timedeltaHours b.booking_duration_hours ≤ now
    · simp only [if_pos he]
      exact sweepOne_terminal now _ (Or.inl rfl)
    · simp only [if_neg he]
      rw [sweepOne_ongoing now b h hd, if_neg he]

/-- Two sweeps at a fixed `now` bring any row to a fixed point of
further sweeps at that `now`. -/
theorem sweepOne_fix (now : Int) (b : Booking) :
    sweepOne now (sweepOne now (sweepOne now b)) =
      sweepOne now (sweepOne now b) := by
  rcases hb : b.status with _ | _ | _ | _
  · by_cases hs : b.booking_start_datetime ≤ now
    · have h1 : sweepOne now b = { b with status := BookingStatus.ongoing } := by
        rw [sweepOne_active now b hb, if_pos hs]
      rw [h1]
      exact sweepOne_ongoing_fix now _ rfl
    · have h1 : sweepOne now b = b := by
        rw [sweepOne_active now b hb, if_neg hs]
      simp only [h1]
  · have := sweepOne_ongoing_fix now b hb
    rw [this, this]
  · simp only [sweepOne_terminal now b (Or.inl hb)]
  · simp only [sweepOne_terminal now b (Or.inr hb)]

/-- The equipment sync is idempotent for a fixed bookings table: the
derived status depends only on the bookings and the row's id, which the
sync never changes. -/
theorem update_equipment_availability_idem (db : List Booking)
    (es : List Equipment) :
    update_equipment_availability db (update_equipment_availability db es) =
      update_equipment_availability db es := by
  simp only [update_equipment_availability_eq, List.map_map]
  exact List.map_congr_left fun e _ => rfl

/-- A reservation booked for the interval `[0h, 1h)` that is still
`ACTIVE` when the sweep finally runs at the two-hour mark — both its
start and its end have already passed. -/
def lateBooking : Booking :=
  { id := 1, equipment_id := 1, user_id := 1, borrower_name := "u",
    borrower_email := "u@example.com", booking_start_datetime := 0,
    booking_duration_hours := 1, status := BookingStatus.active }

/-- Store holding `lateBooking` and its (available) equipment. -/
def lateState : StoreState :=
  { bookings := [lateBooking],
    equipment :=
      [{ id := 1, name := "camera", status := EquipmentStatus.available }] }

/-- **C5 counterexample.**  Calling `advance` twice at the same
`now = 7200` (two hours) on `lateState` is not transition-free on the
second call: the first call moves the booking `ACTIVE → ONGOING` (the
complete loop's snapshot query does not yet see it as `ONGOING`) and the
equipment to `BORROWED`; the second call then moves the booking
`ONGOING → COMPLETED` and the equipment back to `AVAILABLE`.  So the
claimed idempotence `advance(now) ∘ advance(now) = advance(now)` fails. -/
theorem advance_twice_not_transition_free :
    advance 7200 (advance 7200 lateState) ≠ advance 7200 lateState ∧
    (advance 7200 lateState).bookings =
      [{ lateBooking with status := BookingStatus.ongoing }] ∧
    (advance 7200 (advance 7200 lateState)).bookings =
      [{ lateBooking with status := BookingStatus.completed }] := by
  refine ⟨by decide, by decide, by decide⟩

/-- **C5 (amended).**  `advance(now)` is not idempotent — a reservation
whose start and end have both passed takes two calls to reach
`COMPLETED` (see the counterexample) — but it stabilizes after two
calls: a third call at the same `now` produces zero additional
transitions, on reservations and on equipment alike. -/
theorem advance_stabilizes_after_two (now : Int) (s : StoreState) :
    advance now (advance now (advance now s)) =
      advance now (advance now s) := by
  have hU : update_booking_statuses now (update_booking_statuses now
      (update_booking_statuses now s.bookings)) =
      update_booking_statuses now (update_booking_statuses now s.bookings) := by
    simp only [update_booking_statuses, List.map_map]
    exact List.map_congr_left fun b _ => sweepOne_fix now b
  simp only [advance, hU, update_equipment_availability_idem]

/-- Position of a booking status along the forward lifecycle
`Active → Ongoing → Completed` (with `Cancelled` an off-path terminal
state). -/
def statusRank : BookingStatus → Nat
  | BookingStatus.active => 0
  | BookingStatus.ongoing => 1
  | BookingStatus.completed => 2
  | BookingStatus.cancelled => 3

/-- "No backward transition" between two snapshots of the bookings
table: same rows, each row's status rank non-decreasing, `COMPLETED` and
`CANCELLED` terminal, and a row `ACTIVE` later was already `ACTIVE`
earlier (Ongoing never returns to Active).  Rank monotonicity makes every
status a contiguous block of the trace, so each of Active, Ongoing,
Completed is visited at most once and in that order. -/
def stepOK (d1 d2 : List Booking) : Prop :=
  d1.length = d2.length ∧
  ∀ i (h1 : i < d1.length) (h2 : i < d2.length),
    statusRank (d1[i].status) ≤ statusRank (d2[i].status) ∧
    (d1[i].status = BookingStatus.completed →
      d2[i].status = BookingStatus.completed) ∧
    (d1[i].status = BookingStatus.cancelled →
      d2[i].status = BookingStatus.cancelled) ∧
    (d2[i].status = BookingStatus.active →
      d1[i].status = BookingStatus.active)

instance : IsTrans (List Booking) stepOK where
  trans a b c hab hbc := by
    obtain ⟨hlab, hab⟩ := hab
    obtain ⟨hlbc, hbc⟩ := hbc
    refine ⟨hlab.trans hlbc, ?_⟩
    intro i h1 h3
    have h2 : i < b.length := hlab ▸ h1
    obtain ⟨r1, c1, x1, a1⟩ := hab i h1 h2
    obtain ⟨r2, c2, x2, a2⟩ := hbc i h2 h3
    exact ⟨r1.trans r2, fun h => c2 (c1 h), fun h => x2 (x1 h),
      fun h => a1 (a2 h)⟩

/-- One sweep never moves a single row backward. -/
theorem sweepOne_stepOK (now : Int) (b : Booking) :
    statusRank b.status ≤ statusRank (sweepOne now b).status ∧
    (b.status = BookingStatus.completed →
      (sweepOne now b).status = BookingStatus.completed) ∧
    (b.status = BookingStatus.cancelled →
      (sweepOne now b).status = BookingStatus.cancelled) ∧
    ((sweepOne now b).status = BookingStatus.active →
      b.status = BookingStatus.active) := by
  rcases hb : b.status with _ | _ | _ | _
  · rw [sweepOne_active now b hb]
    by_cases hs : b.booking_start_datetime ≤ now <;>
      simp [hs, hb, statusRank]
  · by_cases hd : b.booking_duration_hours = 0
    · simp [sweepOne_ongoing_none now b hb hd, hb]
    · rw [sweepOne_ongoing now b hb hd]
      by_cases he : b.booking_start_datetime +
          timedeltaHours b.booking_duration_hours ≤ now <;>
        simp [he, hb, statusRank]
  · simp [sweepOne_terminal now b (Or.inl hb), hb]
  · simp [sweepOne_terminal now b (Or.inr hb), hb]

/-- One sweep never moves any row of the table backward. -/
theorem sweep_stepOK (now : Int) (db : List Booking) :
    stepOK db (update_booking_statuses now db) := by
  refine ⟨by simp [update_booking_statuses], ?_⟩
  intro i h1 h2
  have hget : (update_booking_statuses now db)[i] = sweepOne now db[i] := by
    simp [update_booking_statuses]
  rw [hget]
  exact sweepOne_stepOK now db[i]

/-- The successive bookings tables along a sequence of sweeps: the
initial table, then the table after each `update_booking_statuses`
call. -/
def sweepTrace (nows : List Int) (db : List Booking) : List (List Booking) :=
  List.scanl (fun d n => update_booking_statuses n d) db nows

theorem sweepTrace_head (nows : List Int) (db : List Booking) :
    (sweepTrace nows db).head? = some db := by
  cases nows <;> simp [sweepTrace, List.scanl]

/-- **C6.** Along any sequence of sweeps with non-decreasing `now`
values, every pair of snapshots of the trace (earlier, later) is related
by `stepOK`: no reservation ever transitions backward, `Completed` and
`Cancelled` are terminal, and Ongoing never returns to Active; by rank
monotonicity each reservation passes through Active, Ongoing, Completed
at most once each and in that order. -/
theorem sweep_lifecycle_monotone (nows : List Int) (db : List Booking)
    (hmono : nows.Sorted (· ≤ ·)) :
    List.Pairwise stepOK (sweepTrace nows db) := by
  rw [← List.chain'_iff_pairwise]
  induction nows generalizing db with
  | nil => simp [sweepTrace, List.scanl]
  | cons n ns ih =>
    have hrest := ih (update_booking_statuses n db)
      ((List.sorted_cons.mp hmono).2)
    rw [sweepTrace, List.scanl]
    rw [List.chain'_cons']
    refine ⟨?_, hrest⟩
    intro x hx
    rw [show List.scanl (fun d n => update_booking_statuses n d)
        (update_booking_statuses n db) ns =
        sweepTrace ns (update_booking_statuses n db) from rfl,
      sweepTrace_head] at hx
    obtain rfl : update_booking_statuses n db = x := by
      simpa using hx
    exact sweep_stepOK n db

/-- **C7 counterexample.**  The reservation sweep and the equipment sync
are two separately scheduled jobs, each with its own session and its own
`try/commit/except-rollback`.  When the sweep job commits and the sync
job then fails, the invocation is left partially applied: on `lateState`
at `now = 7200` the result differs both from the untouched prior state
and from the fully applied `advance` — so "on any error the whole
invocation rolls back with no partial effect" is false. -/
theorem scheduler_tick_partial_effect :
    run_scheduler_tick false true 7200 lateState ≠ lateState ∧
    run_scheduler_tick false true 7200 lateState ≠ advance 7200 lateState := by
  refine ⟨by decide, by decide⟩

/-- **C7 (amended).**  Each of the two scheduler jobs is individually
all-or-nothing and never raises (modelled by totality): a tick's outcome
is always one of exactly four states — nothing applied, only the
reservation sweep committed, only the equipment sync committed (reading
the old bookings), or the full `advance`; and when neither job fails the
tick is exactly `advance now`. -/
theorem scheduler_tick_outcomes (sweepFails syncFails : Bool) (now : Int)
    (s : StoreState) :
    (run_scheduler_tick true true now s = s) ∧
    (run_scheduler_tick false false now s = advance now s) ∧
    (run_scheduler_tick sweepFails syncFails now s = s ∨
     run_scheduler_tick sweepFails syncFails now s =
       { s with bookings := update_booking_statuses now s.bookings } ∨
     run_scheduler_tick sweepFails syncFails now s =
       { s with equipment :=
           update_equipment_availability s.bookings s.equipment } ∨
     run_scheduler_tick sweepFails syncFails now s = advance now s) := by
  refine ⟨by simp [run_scheduler_tick], by simp [run_scheduler_tick, advance], ?_⟩
  cases sweepFails <;> cases syncFails
  · exact Or.inr (Or.inr (Or.inr (by simp [run_scheduler_tick, advance])))
  · exact Or.inr (Or.inl (by simp [run_scheduler_tick]))
  · exact Or.inr (Or.inr (Or.inl (by simp [run_scheduler_tick])))
  · exact Or.inl (by simp [run_scheduler_tick])

/-- A reservation already in the `COMPLETED` state, as left behind by a
finished lifecycle. -/
def archivedBooking : Booking :=
  { id := 5, equipment_id := 2, user_id := 3, borrower_name := "v",
    borrower_email := "v@example.com", booking_start_datetime := 0,
    booking_duration_hours := 2, status := BookingStatus.completed }

/-- **C8 counterexample.**  The admin `update_booking` endpoint applies
the provided fields to a booking found by id with no check on its
current status: sent a duration change for the `COMPLETED` row
`archivedBooking`, it commits a modified row — so Completed reservations
are not immutable. -/
theorem completed_booking_mutable :
    update_booking [archivedBooking] 5
        { booking_start_datetime := none,
          booking_duration_hours := some 8, status := none } =
      Except.ok [{ archivedBooking with booking_duration_hours := 8 }] ∧
    archivedBooking.status = BookingStatus.completed ∧
    ({ archivedBooking with booking_duration_hours := 8 } : Booking)
      ≠ archivedBooking := by
  refine ⟨by rfl, by decide, by decide⟩

/-- **C8 (amended).**  The single-record cancel operations (user and
admin) reject any found reservation whose status is not `ACTIVE` with a
400 error, committing nothing, and the administrative bulk cleanup
removes exactly the `COMPLETED` and `CANCELLED` reservations; but
Completed/Cancelled rows are not immutable, because the admin
single-record `update_booking` modifies a booking regardless of its
status (see the counterexample). -/
theorem cancel_rejects_nonactive_and_cleanup_exact
    (db : List Booking) (current_user_id booking_id : Nat) (b : Booking) :
    (db.find? (fun x => x.id = booking_id ∧ x.user_id = current_user_id)
        = some b →
      b.status ≠ BookingStatus.active →
      cancel_booking_user db current_user_id booking_id =
        Except.error ApiError.badRequest) ∧
    (db.find? (fun x => x.id = booking_id) = some b →
      b.status ≠ BookingStatus.active →
      cancel_booking_admin db booking_id =
        Except.error ApiError.badRequest) ∧
    (∀ x, x ∈ (clean_completed_cancelled_bookings db).2 ↔
      x ∈ db ∧ x.status ≠ BookingStatus.completed ∧
        x.status ≠ BookingStatus.cancelled) := by
  refine ⟨?_, ?_, ?_⟩
  · intro hfind hstatus
    simp only [cancel_booking_user, hfind]
    rw [if_pos hstatus]
  · intro hfind hstatus
    simp only [cancel_booking_admin, hfind]
    rw [if_pos hstatus]
  · intro x
    simp only [clean_completed_cancelled_bookings, List.mem_filter,
      decide_eq_true_eq]
    constructor
    · rintro ⟨hmem, hst⟩
      push_neg at hst
      exact ⟨hmem, hst⟩
    · rintro ⟨hmem, h1, h2⟩
      exact ⟨hmem, by tauto⟩

/-- **C8 witness.**  The amended statement instantiated on
`archivedBooking` (`COMPLETED`): both cancel endpoints reject it and the
bulk cleanup removes it. -/
theorem cancel_rejects_nonactive_witness :
    ([archivedBooking].find? (fun x => x.id = 5 ∧ x.user_id = 3)
        = some archivedBooking) ∧
    archivedBooking.status ≠ BookingStatus.active ∧
    cancel_booking_user [archivedBooking] 3 5 =
      Except.error ApiError.badRequest :=
  ⟨by decide, by decide,
    (cancel_rejects_nonactive_and_cleanup_exact [archivedBooking] 3 5
      archivedBooking).1 (by decide) (by decide)⟩

/-- **C9.**  Within one sweep at a fixed `now`, the two sub-steps act on
disjoint snapshot status sets (`ACTIVE` vs `ONGOING`), so the sweep as
implemented — activate loop then complete loop — produces exactly the
same table as running the complete loop first and the activate loop
second. -/
theorem sweep_substeps_order_irrelevant (now : Int) (db : List Booking) :
    update_booking_statuses now db =
      db.map (fun b => activateLoop now b (completeLoop now b b)) := by
  unfold update_booking_statuses
  refine List.map_congr_left fun b _ => ?_
  rcases hb : b.status with _ | _ | _ | _ <;>
    simp [sweepOne, activateLoop, completeLoop, hb]

/-- `completeLoop` writes only the status field. -/
theorem completeLoop_dataFields (now : Int) (snap cur : Booking) :
    (completeLoop now snap cur).dataFields = cur.dataFields := by
  unfold completeLoop
  split <;> rfl

/-- `activateLoop` writes only the status field. -/
theorem activateLoop_dataFields (now : Int) (snap cur : Booking) :
    (activateLoop now snap cur).dataFields = cur.dataFields := by
  unfold activateLoop
  split <;> rfl

/-- **C10.**  Frame property of the Lifecycle Advancer: the reservation
sweep preserves every booking's non-status fields (id, equipment
reference, borrower fields, start, duration), the equipment sync
preserves every equipment's non-status fields (id, name) and reads — but
never writes — the bookings, and across a whole `advance` the bookings'
and equipment's non-status fields are untouched; within `advance` the
bookings component is exactly the sweep's output (the sync contributes
nothing to it). -/
theorem advance_frame (now : Int) (s : StoreState) :
    (update_booking_statuses now s.bookings).map Booking.dataFields =
      s.bookings.map Booking.dataFields ∧
    (update_equipment_availability s.bookings s.equipment).map
        Equipment.dataFields =
      s.equipment.map Equipment.dataFields ∧
    (advance now s).bookings = update_booking_statuses now s.bookings ∧
    (advance now s).bookings.map Booking.dataFields =
      s.bookings.map Booking.dataFields ∧
    (advance now s).equipment.map Equipment.dataFields =
      s.equipment.map Equipment.dataFields := by
  have hsweep : ∀ db : List Booking,
      (update_booking_statuses now db).map Booking.dataFields =
        db.map Booking.dataFields := by
    intro db
    simp only [update_booking_statuses, List.map_map]
    refine List.map_congr_left fun b _ => ?_
    show (sweepOne now b).dataFields = b.dataFields
    rw [sweepOne, completeLoop_dataFields, activateLoop_dataFields]
  have hsync : ∀ (db : List Booking) (es : List Equipment),
      (update_equipment_availability db es).map Equipment.dataFields =
        es.map Equipment.dataFields := by
    intro db es
    simp only [update_equipment_availability_eq, List.map_map]
    exact List.map_congr_left fun e _ => rfl
  exact ⟨hsweep s.bookings, hsync s.bookings s.equipment, rfl,
    hsweep s.bookings, (hsync _ s.equipment)⟩

/-- **C3 witness.**  The sweep characterization instantiated on a
concrete well-formed table. -/
theorem sweep_transitions_exactly_witness :
    (∀ b ∈ [lateBooking], 1 ≤ b.booking_duration_hours) ∧
    (update_booking_statuses 7200 [lateBooking]).length =
      [lateBooking].length :=
  ⟨by decide, (sweep_transitions_exactly 7200 [lateBooking] (by decide)).1⟩

/-- **C4 witness.**  The post-`advance` equipment/ongoing equivalence
instantiated on the concrete store `lateState` at `now = 7200`. -/
theorem advance_equipment_iff_ongoing_witness :
    (advance 7200 lateState).equipment.length =
      lateState.equipment.length ∧
    ∀ e ∈ (advance 7200 lateState).equipment,
      (e.status = EquipmentStatus.borrowed ↔
        ∃ b ∈ (advance 7200 lateState).bookings,
          b.equipment_id = e.id ∧ b.status = BookingStatus.ongoing) :=
  advance_equipment_iff_ongoing 7200 lateState

/-- **C6 witness.**  The monotone-lifecycle theorem instantiated on the
concrete sorted schedule `[0, 7200]` and table `[lateBooking]`. -/
theorem sweep_lifecycle_monotone_witness :
    ([0, 7200] : List Int).Sorted (· ≤ ·) ∧
    List.Pairwise stepOK (sweepTrace [0, 7200] [lateBooking]) :=
  ⟨by decide, sweep_lifecycle_monotone [0, 7200] [lateBooking] (by decide)⟩

end ScheduleAssistant
